import Mathlib

/-!
Shallow embedding of `axuy/view.py` (class `View` and its module-level
constants), for checking the natural-language specification of the
boundary-mesh builder, grid assembly, camera placement and rendering.

Coordinates of face anchors live in `ℤ × ℤ × ℤ` (extended space can be
negative); grid cells are indexed by natural numbers, with out-of-range
reads defaulting to `false` (an unset cell).
-/

namespace Axuy

/-- The pool `(-1, 0, 1)` passed to `combinations_with_replacement`. -/
def pool : List ℤ := [-1, 0, 1]

/-- `itertools.combinations_with_replacement(l, 3)`: all `(l[i], l[j], l[k])`
with `i ≤ j ≤ k`, realised by walking the suffixes of `l`. -/
def cwr3 (l : List ℤ) : List (ℤ × ℤ × ℤ) :=
  l.tails.flatMap fun s =>
    match s with
    | [] => []
    | a :: _ =>
      s.tails.flatMap fun t =>
        match t with
        | [] => []
        | b :: _ => t.map fun c => (a, b, c)

/-- `itertools.permutations` on a 3-tuple: the six index orderings, in
Python's emission order. -/
def perms3 (v : ℤ × ℤ × ℤ) : List (ℤ × ℤ × ℤ) :=
  [(v.1, v.2.1, v.2.2), (v.1, v.2.2, v.2.1), (v.2.1, v.1, v.2.2),
   (v.2.1, v.2.2, v.1), (v.2.2, v.1, v.2.1), (v.2.2, v.2.1, v.1)]

/-- `NEIGHBORS = set(chain.from_iterable(map(permutations,
combinations_with_replacement((-1, 0, 1), 3))))` from `view.py`. -/
def NEIGHBORS : Finset (ℤ × ℤ × ℤ) :=
  ((cwr3 pool).flatMap perms3).toFinset

/-! ### Grid assembly and boundary-mesh construction (`View.__init__`) -/

/-- A flag of the stacked tile data, viewed through
`.reshape(4, 4, 3, 3, 3, 3)` in C (row-major) order: index
`(a, b, c, d, e, f)` reads flat element `324a + 81b + 27c + 9d + 3e + f`. -/
def reshapedFlag (flat : ℕ → Bool) (a b c d e f : ℕ) : Bool :=
  flat (324 * a + 81 * b + 27 * c + 9 * d + 3 * e + f)

/-- The index tuples visited by `np.ndenumerate` on the reshaped array of
shape `(4, 4, 3, 3, 3, 3)`, in C order. -/
def idxTuples : List (ℕ × ℕ × ℕ × ℕ × ℕ × ℕ) :=
  (List.range 4).flatMap fun a =>
    (List.range 4).flatMap fun b =>
      (List.range 3).flatMap fun c =>
        (List.range 3).flatMap fun d =>
          (List.range 3).flatMap fun e =>
            (List.range 3).map fun f => (a, b, c, d, e, f)

/-- `self.space[x][y][z] = 1` on a functional grid. -/
def setCell (g : ℕ → ℕ → ℕ → Bool) (x y z : ℕ) : ℕ → ℕ → ℕ → Bool :=
  fun x' y' z' => if x' = x ∧ y' = y ∧ z' = z then true else g x' y' z'

/-- Anchors inserted into `oxy` while visiting occupied cell `(x, y, z)`:
for each `(tx, ty, tz)` in `NEIGHBORS`, both `(xt, yt, zt)` and
`(xt, yt, kt)` with `k = (z+1) % 9`. -/
def cellOxy (x y z : ℕ) : Finset (ℤ × ℤ × ℤ) :=
  NEIGHBORS.biUnion fun v =>
    {((x : ℤ) + v.1 * 12, (y : ℤ) + v.2.1 * 12, (z : ℤ) + v.2.2 * 9),
     ((x : ℤ) + v.1 * 12, (y : ℤ) + v.2.1 * 12, (((z + 1) % 9 : ℕ) : ℤ) + v.2.2 * 9)}

/-- Anchors inserted into `oyz` while visiting occupied cell `(x, y, z)`:
both `(xt, yt, zt)` and `(it, yt, zt)` with `i = (x+1) % 12`. -/
def cellOyz (x y z : ℕ) : Finset (ℤ × ℤ × ℤ) :=
  NEIGHBORS.biUnion fun v =>
    {((x : ℤ) + v.1 * 12, (y : ℤ) + v.2.1 * 12, (z : ℤ) + v.2.2 * 9),
     ((((x + 1) % 12 : ℕ) : ℤ) + v.1 * 12, (y : ℤ) + v.2.1 * 12, (z : ℤ) + v.2.2 * 9)}

/-- Anchors inserted into `ozx` while visiting occupied cell `(x, y, z)`:
both `(xt, yt, zt)` and `(xt, jt, zt)` with `j = (y+1) % 12`. -/
def cellOzx (x y z : ℕ) : Finset (ℤ × ℤ × ℤ) :=
  NEIGHBORS.biUnion fun v =>
    {((x : ℤ) + v.1 * 12, (y : ℤ) + v.2.1 * 12, (z : ℤ) + v.2.2 * 9),
     ((x : ℤ) + v.1 * 12, (((y + 1) % 12 : ℕ) : ℤ) + v.2.1 * 12, (z : ℤ) + v.2.2 * 9)}

/-- State threaded through the `np.ndenumerate` loop of `View.__init__`:
the three face-anchor sets and the 12×12×9 occupancy grid. -/
structure BuildState where
  oxy : Finset (ℤ × ℤ × ℤ)
  oyz : Finset (ℤ × ℤ × ℤ)
  ozx : Finset (ℤ × ℤ × ℤ)
  space : ℕ → ℕ → ℕ → Bool

/-- The body of the loop for one occupied cell `(x, y, z)`: update the
three sets over all neighbor directions and set the grid cell. -/
def visitCell (st : BuildState) (x y z : ℕ) : BuildState :=
  { oxy := st.oxy ∪ cellOxy x y z
    oyz := st.oyz ∪ cellOyz x y z
    ozx := st.ozx ∪ cellOzx x y z
    space := setCell st.space x y z }

/-- One iteration of the loop: `if occupied: ...` with
`x, y, z = a*3 + d, b*3 + e, c*3 + f`. -/
def buildStep (flat : ℕ → Bool) (st : BuildState) (t : ℕ × ℕ × ℕ × ℕ × ℕ × ℕ) :
    BuildState :=
  if reshapedFlag flat t.1 t.2.1 t.2.2.1 t.2.2.2.1 t.2.2.2.2.1 t.2.2.2.2.2 then
    visitCell st (t.1 * 3 + t.2.2.2.1) (t.2.1 * 3 + t.2.2.2.2.1)
      (t.2.2.1 * 3 + t.2.2.2.2.2)
  else st

/-- The whole loop of `View.__init__`, starting from empty sets and
`np.zeros([12, 12, 9])`. -/
def build (flat : ℕ → Bool) : BuildState :=
  idxTuples.foldl (buildStep flat) ⟨∅, ∅, ∅, fun _ _ _ => false⟩

/-! ### Vertex buffer emission -/

/-- Quad template `OXY` from `view.py`. -/
def OXY : List (ℤ × ℤ × ℤ) :=
  [(0, 0, 0), (1, 0, 0), (1, 1, 0), (1, 1, 0), (0, 1, 0), (0, 0, 0)]

/-- Quad template `OYZ` from `view.py`. -/
def OYZ : List (ℤ × ℤ × ℤ) :=
  [(0, 0, 0), (0, 1, 0), (0, 1, 1), (0, 1, 1), (0, 0, 1), (0, 0, 0)]

/-- Quad template `OZX` from `view.py`. -/
def OZX : List (ℤ × ℤ × ℤ) :=
  [(0, 0, 0), (1, 0, 0), (1, 0, 1), (1, 0, 1), (0, 0, 1), (0, 0, 0)]

/-- Componentwise vector addition `i + j` of numpy rows. -/
def vadd (a v : ℤ × ℤ × ℤ) : ℤ × ℤ × ℤ :=
  (a.1 + v.1, a.2.1 + v.2.1, a.2.2 + v.2.2)

/-- `vertices.extend(i + j for j in tmpl)` over an iteration `l` of a
face set — one quad of six vertices per listed anchor. -/
def quads (tmpl : List (ℤ × ℤ × ℤ)) (l : List (ℤ × ℤ × ℤ)) : List (ℤ × ℤ × ℤ) :=
  l.flatMap fun a => tmpl.map (vadd a)

/-- `l` is an iteration of the Python set `s`: each element once, in some
unspecified order. -/
def enumerates (l : List (ℤ × ℤ × ℤ)) (s : Finset (ℤ × ℤ × ℤ)) : Prop :=
  l.Nodup ∧ l.toFinset = s

/-- The flat list `vertices`: XY faces, then YZ faces, then ZX faces,
from iterations `lxy`, `lyz`, `lzx` of the three face sets. -/
def vertexBuffer (lxy lyz lzx : List (ℤ × ℤ × ℤ)) : List (ℤ × ℤ × ℤ) :=
  quads OXY lxy ++ quads OYZ lyz ++ quads OZX lzx

/-- `np.stack(vertices)`, feeding the GPU buffer: stacking a nonempty
list of 3-vectors yields the N×3 array with the same rows, but stacking
the empty list raises `ValueError: need at least one array to stack`,
modelled as `none`. -/
def stackVertices (l : List (ℤ × ℤ × ℤ)) : Option (List (ℤ × ℤ × ℤ)) :=
  if l = [] then none else some l

/-! ### Stacking the tile library (`np.stack([SPACE[i] for i in mapid]).reshape(...)`)

Each tile flattens to 81 booleans (the reshape to `(4, 4, 3, 3, 3, 3)`
requires `81 * len(mapid) = 1296`).  `SPACE[i]` follows numpy indexing:
`0 ≤ i < nTiles` reads tile `i`, `-nTiles ≤ i < 0` reads tile
`nTiles + i`, anything else raises `IndexError`; a reshape of the wrong
total size raises `ValueError`.  Fallible steps are modelled in `Option`. -/

/-- `SPACE[i]` with numpy index semantics. -/
def lookupTile (nTiles : ℕ) (lib : ℕ → ℕ → Bool) (i : ℤ) : Option (ℕ → Bool) :=
  if 0 ≤ i ∧ i < (nTiles : ℤ) then some (lib i.toNat)
  else if -(nTiles : ℤ) ≤ i ∧ i < 0 then some (lib (i + nTiles).toNat)
  else none

/-- The list comprehension `[SPACE[i] for i in mapid]`: evaluates the
lookups left to right, propagating an `IndexError` as `none`. -/
def stackBlocks (nTiles : ℕ) (lib : ℕ → ℕ → Bool) : List ℤ → Option (List (ℕ → Bool))
  | [] => some []
  | i :: rest =>
    match lookupTile nTiles lib i, stackBlocks nTiles lib rest with
    | some b, some bs => some (b :: bs)
    | _, _ => none

/-- `np.stack([SPACE[i] for i in mapid]).reshape(4, 4, 3, 3, 3, 3)` as a
flat 1296-element boolean array, or `none` on `IndexError`/`ValueError`
(the reshape needs `81 * len(mapid) = 1296`, i.e. exactly 16 blocks). -/
def buildStacked (nTiles : ℕ) (lib : ℕ → ℕ → Bool) (mapid : List ℤ) :
    Option (ℕ → Bool) :=
  match stackBlocks nTiles lib mapid with
  | none => none
  | some blocks =>
    if blocks.length = 16 then
      some (fun n => blocks.getD (n / 81) (fun _ => false) (n % 81))
    else none

/-! ### Camera placement -/

/-- Python `int()` on a nonnegative-or-negative rational: truncation
toward zero. -/
def pyInt (q : ℚ) : ℤ :=
  if q < 0 then -⌊-q⌋ else ⌊q⌋

/-- `x, y, z = random()*12, random()*12, random()*9` for the `n`-th round
of sampling, from a stream `rs` of raw `random()` values. -/
def placeSamples (rs : ℕ → ℚ × ℚ × ℚ) (n : ℕ) : ℚ × ℚ × ℚ :=
  ((rs n).1 * 12, (rs n).2.1 * 12, (rs n).2.2 * 9)

/-- The loop guard `self.space[int(x)][int(y)][int(z)]`. -/
def occupiedAt (space : ℕ → ℕ → ℕ → Bool) (p : ℚ × ℚ × ℚ) : Bool :=
  space (pyInt p.1).toNat (pyInt p.2.1).toNat (pyInt p.2.2).toNat

/-- The rejection-sampling loop: keep drawing until the guard is false.
Its result, defined whenever some round terminates the loop, is the first
sample whose truncated cell is unoccupied. -/
def placeCamera (space : ℕ → ℕ → ℕ → Bool) (rs : ℕ → ℚ × ℚ × ℚ)
    (h : ∃ n, occupiedAt space (placeSamples rs n) = false) : ℚ × ℚ × ℚ :=
  placeSamples rs (Nat.find h)

/-! ### Rendering (`View.render`) -/

/-- Values computed for uniforms: matrices stay symbolic (they are
produced by the external `pyrr` library), positions are rationals. -/
inductive RVal where
  | perspective (fov aspect near far : ℚ) : RVal
  | lookAt (eye target up : ℚ × ℚ × ℚ) : RVal
  | matmul (m1 m2 : RVal) : RVal
  | vec (v : ℚ × ℚ × ℚ) : RVal
deriving DecidableEq

/-- Calls issued to the rendering backend. -/
inductive Cmd where
  | writeUniform (uname : String) (v : RVal) : Cmd
  | drawTriangles : Cmd
deriving DecidableEq

/-- The state a `View` holds when `render` runs: the occupancy grid and
the camera (position plus right/upward/forward rotation rows). -/
structure ViewState where
  space : ℕ → ℕ → ℕ → Bool
  camPos : ℚ × ℚ × ℚ
  camRight : ℚ × ℚ × ℚ
  camUpward : ℚ × ℚ × ℚ
  camForward : ℚ × ℚ × ℚ

/-- Componentwise addition of positions (`self.pos + self.forward`). -/
def qadd (a b : ℚ × ℚ × ℚ) : ℚ × ℚ × ℚ :=
  (a.1 + b.1, a.2.1 + b.2.1, a.2.2 + b.2.2)

/-- `View.render(width, height, fov)`: build the projection and look-at
matrices, write the `mvp` and `eye` uniforms, draw triangles.  The view
state is threaded through explicitly; no statement of the source assigns
to `self.space` or `self.camera`. -/
def render (v : ViewState) (width height fov : ℚ) : ViewState × List Cmd :=
  (v,
   [Cmd.writeUniform "mvp"
      (RVal.matmul (RVal.perspective fov (width / height) (1 / 10000) 4)
        (RVal.lookAt v.camPos (qadd v.camPos v.camForward) v.camUpward)),
    Cmd.writeUniform "eye" (RVal.vec v.camPos),
    Cmd.drawTriangles])


/-- The flag read in iteration `t` of the loop. -/
def flagOf (flat : ℕ → Bool) (t : ℕ × ℕ × ℕ × ℕ × ℕ × ℕ) : Bool :=
  reshapedFlag flat t.1 t.2.1 t.2.2.1 t.2.2.2.1 t.2.2.2.2.1 t.2.2.2.2.2

/-- The cell `(x, y, z) = (a*3 + d, b*3 + e, c*3 + f)` of iteration `t`. -/
def coordsOf (t : ℕ × ℕ × ℕ × ℕ × ℕ × ℕ) : ℕ × ℕ × ℕ :=
  (t.1 * 3 + t.2.2.2.1, t.2.1 * 3 + t.2.2.2.2.1, t.2.2.1 * 3 + t.2.2.2.2.2)

lemma buildStep_eq (flat : ℕ → Bool) (st : BuildState) (t : ℕ × ℕ × ℕ × ℕ × ℕ × ℕ) :
    buildStep flat st t =
      if flagOf flat t then
        visitCell st (coordsOf t).1 (coordsOf t).2.1 (coordsOf t).2.2
      else st := rfl

lemma buildStep_space (flat : ℕ → Bool) (st : BuildState) (t : ℕ × ℕ × ℕ × ℕ × ℕ × ℕ)
    (x y z : ℕ) :
    (buildStep flat st t).space x y z =
      (st.space x y z || (flagOf flat t && decide (coordsOf t = (x, y, z)))) := by
  rw [buildStep_eq]
  by_cases hf : flagOf flat t
  · by_cases hc : coordsOf t = (x, y, z)
    · simp [hf, hc, visitCell, setCell, Prod.ext_iff]
    · have hne : ¬ (x = (coordsOf t).1 ∧ y = (coordsOf t).2.1 ∧ z = (coordsOf t).2.2) := by
        intro h
        exact hc (by simp [Prod.ext_iff, h.1.symm, h.2.1.symm, h.2.2.symm])
      simp only [hf, if_true, decide_eq_false hc, Bool.and_false, Bool.or_false]
      simp [visitCell, setCell, hne]
  · simp [hf]

lemma foldl_space (flat : ℕ → Bool) (l : List (ℕ × ℕ × ℕ × ℕ × ℕ × ℕ))
    (st : BuildState) (x y z : ℕ) :
    (l.foldl (buildStep flat) st).space x y z =
      (st.space x y z || l.any fun t => flagOf flat t && decide (coordsOf t = (x, y, z))) := by
  induction l generalizing st with
  | nil => simp
  | cons t l ih =>
    rw [List.foldl_cons, ih, buildStep_space, List.any_cons, Bool.or_assoc]

lemma mem_idxTuples (t : ℕ × ℕ × ℕ × ℕ × ℕ × ℕ) :
    t ∈ idxTuples ↔
      t.1 < 4 ∧ t.2.1 < 4 ∧ t.2.2.1 < 3 ∧ t.2.2.2.1 < 3 ∧ t.2.2.2.2.1 < 3 ∧ t.2.2.2.2.2 < 3 := by
  obtain ⟨a, b, c, d, e, f⟩ := t
  constructor
  · intro h
    simp only [idxTuples, List.mem_flatMap, List.mem_map, List.mem_range, Prod.mk.injEq] at h
    obtain ⟨a', ha', b', hb', c', hc', d', hd', e', he', f', hf', h1, h2, h3, h4, h5, h6⟩ := h
    subst h1; subst h2; subst h3; subst h4; subst h5; subst h6
    exact ⟨ha', hb', hc', hd', he', hf'⟩
  · rintro ⟨ha, hb, hc, hd, he, hf⟩
    simp only [idxTuples, List.mem_flatMap, List.mem_map, List.mem_range, Prod.mk.injEq]
    exact ⟨a, ha, b, hb, c, hc, d, hd, e, he, f, hf, rfl, rfl, rfl, rfl, rfl, rfl⟩


lemma build_space_iff (flat : ℕ → Bool) (x y z : ℕ) :
    (build flat).space x y z = true ↔
      ∃ a b c d e f : ℕ, a < 4 ∧ b < 4 ∧ c < 3 ∧ d < 3 ∧ e < 3 ∧ f < 3 ∧
        reshapedFlag flat a b c d e f = true ∧
        x = a * 3 + d ∧ y = b * 3 + e ∧ z = c * 3 + f := by
  rw [build, foldl_space]
  simp only [Bool.false_or, List.any_eq_true, Bool.and_eq_true, decide_eq_true_eq]
  constructor
  · rintro ⟨⟨a, b, c, d, e, f⟩, ht, hflag, hco⟩
    rw [mem_idxTuples] at ht
    simp only [coordsOf, Prod.mk.injEq] at hco
    exact ⟨a, b, c, d, e, f, ht.1, ht.2.1, ht.2.2.1, ht.2.2.2.1, ht.2.2.2.2.1,
      ht.2.2.2.2.2, hflag, hco.1.symm, hco.2.1.symm, hco.2.2.symm⟩
  · rintro ⟨a, b, c, d, e, f, ha, hb, hc, hd, he, hf, hflag, hx, hy, hz⟩
    exact ⟨(a, b, c, d, e, f), (mem_idxTuples _).mpr ⟨ha, hb, hc, hd, he, hf⟩, hflag,
      by simp [coordsOf, hx, hy, hz]⟩

lemma buildStep_mem_oxy (flat : ℕ → Bool) (st : BuildState) (t : ℕ × ℕ × ℕ × ℕ × ℕ × ℕ)
    (p : ℤ × ℤ × ℤ) :
    p ∈ (buildStep flat st t).oxy ↔
      p ∈ st.oxy ∨
        (flagOf flat t = true ∧ p ∈ cellOxy (coordsOf t).1 (coordsOf t).2.1 (coordsOf t).2.2) := by
  rw [buildStep_eq]
  by_cases hf : flagOf flat t <;> simp [hf, visitCell, Finset.mem_union]

lemma buildStep_mem_oyz (flat : ℕ → Bool) (st : BuildState) (t : ℕ × ℕ × ℕ × ℕ × ℕ × ℕ)
    (p : ℤ × ℤ × ℤ) :
    p ∈ (buildStep flat st t).oyz ↔
      p ∈ st.oyz ∨
        (flagOf flat t = true ∧ p ∈ cellOyz (coordsOf t).1 (coordsOf t).2.1 (coordsOf t).2.2) := by
  rw [buildStep_eq]
  by_cases hf : flagOf flat t <;> simp [hf, visitCell, Finset.mem_union]

lemma buildStep_mem_ozx (flat : ℕ → Bool) (st : BuildState) (t : ℕ × ℕ × ℕ × ℕ × ℕ × ℕ)
    (p : ℤ × ℤ × ℤ) :
    p ∈ (buildStep flat st t).ozx ↔
      p ∈ st.ozx ∨
        (flagOf flat t = true ∧ p ∈ cellOzx (coordsOf t).1 (coordsOf t).2.1 (coordsOf t).2.2) := by
  rw [buildStep_eq]
  by_cases hf : flagOf flat t <;> simp [hf, visitCell, Finset.mem_union]

lemma foldl_mem_oxy (flat : ℕ → Bool) (l : List (ℕ × ℕ × ℕ × ℕ × ℕ × ℕ))
    (st : BuildState) (p : ℤ × ℤ × ℤ) :
    p ∈ (l.foldl (buildStep flat) st).oxy ↔
      p ∈ st.oxy ∨ ∃ t ∈ l, flagOf flat t = true ∧
        p ∈ cellOxy (coordsOf t).1 (coordsOf t).2.1 (coordsOf t).2.2 := by
  induction l generalizing st with
  | nil => simp
  | cons t l ih =>
    rw [List.foldl_cons, ih, buildStep_mem_oxy]
    simp only [List.exists_mem_cons_iff]
    tauto

lemma foldl_mem_oyz (flat : ℕ → Bool) (l : List (ℕ × ℕ × ℕ × ℕ × ℕ × ℕ))
    (st : BuildState) (p : ℤ × ℤ × ℤ) :
    p ∈ (l.foldl (buildStep flat) st).oyz ↔
      p ∈ st.oyz ∨ ∃ t ∈ l, flagOf flat t = true ∧
        p ∈ cellOyz (coordsOf t).1 (coordsOf t).2.1 (coordsOf t).2.2 := by
  induction l generalizing st with
  | nil => simp
  | cons t l ih =>
    rw [List.foldl_cons, ih, buildStep_mem_oyz]
    simp only [List.exists_mem_cons_iff]
    tauto

lemma foldl_mem_ozx (flat : ℕ → Bool) (l : List (ℕ × ℕ × ℕ × ℕ × ℕ × ℕ))
    (st : BuildState) (p : ℤ × ℤ × ℤ) :
    p ∈ (l.foldl (buildStep flat) st).ozx ↔
      p ∈ st.ozx ∨ ∃ t ∈ l, flagOf flat t = true ∧
        p ∈ cellOzx (coordsOf t).1 (coordsOf t).2.1 (coordsOf t).2.2 := by
  induction l generalizing st with
  | nil => simp
  | cons t l ih =>
    rw [List.foldl_cons, ih, buildStep_mem_ozx]
    simp only [List.exists_mem_cons_iff]
    tauto

lemma exists_tuple_iff (flat : ℕ → Bool) (P : ℕ → ℕ → ℕ → Prop) :
    (∃ t ∈ idxTuples, flagOf flat t = true ∧
        P (coordsOf t).1 (coordsOf t).2.1 (coordsOf t).2.2) ↔
      ∃ x y z : ℕ, (build flat).space x y z = true ∧ P x y z := by
  constructor
  · rintro ⟨⟨a, b, c, d, e, f⟩, ht, hflag, hP⟩
    rw [mem_idxTuples] at ht
    refine ⟨_, _, _, ?_, hP⟩
    exact (build_space_iff flat _ _ _).mpr ⟨a, b, c, d, e, f, ht.1, ht.2.1, ht.2.2.1,
      ht.2.2.2.1, ht.2.2.2.2.1, ht.2.2.2.2.2, hflag, rfl, rfl, rfl⟩
  · rintro ⟨x, y, z, hsp, hP⟩
    obtain ⟨a, b, c, d, e, f, ha, hb, hc, hd, he, hf, hflag, hx, hy, hz⟩ :=
      (build_space_iff flat x y z).mp hsp
    subst hx; subst hy; subst hz
    exact ⟨(a, b, c, d, e, f), (mem_idxTuples _).mpr ⟨ha, hb, hc, hd, he, hf⟩, hflag, hP⟩

lemma mem_cellOxy (x y z : ℕ) (p : ℤ × ℤ × ℤ) :
    p ∈ cellOxy x y z ↔ ∃ v ∈ NEIGHBORS,
      (p = ((x : ℤ) + v.1 * 12, (y : ℤ) + v.2.1 * 12, (z : ℤ) + v.2.2 * 9) ∨
       p = ((x : ℤ) + v.1 * 12, (y : ℤ) + v.2.1 * 12, (((z + 1) % 9 : ℕ) : ℤ) + v.2.2 * 9)) := by
  simp only [cellOxy, Finset.mem_biUnion, Finset.mem_insert, Finset.mem_singleton]

lemma mem_cellOyz (x y z : ℕ) (p : ℤ × ℤ × ℤ) :
    p ∈ cellOyz x y z ↔ ∃ v ∈ NEIGHBORS,
      (p = ((x : ℤ) + v.1 * 12, (y : ℤ) + v.2.1 * 12, (z : ℤ) + v.2.2 * 9) ∨
       p = ((((x + 1) % 12 : ℕ) : ℤ) + v.1 * 12, (y : ℤ) + v.2.1 * 12, (z : ℤ) + v.2.2 * 9)) := by
  simp only [cellOyz, Finset.mem_biUnion, Finset.mem_insert, Finset.mem_singleton]

lemma mem_cellOzx (x y z : ℕ) (p : ℤ × ℤ × ℤ) :
    p ∈ cellOzx x y z ↔ ∃ v ∈ NEIGHBORS,
      (p = ((x : ℤ) + v.1 * 12, (y : ℤ) + v.2.1 * 12, (z : ℤ) + v.2.2 * 9) ∨
       p = ((x : ℤ) + v.1 * 12, (((y + 1) % 12 : ℕ) : ℤ) + v.2.1 * 12, (z : ℤ) + v.2.2 * 9)) := by
  simp only [cellOzx, Finset.mem_biUnion, Finset.mem_insert, Finset.mem_singleton]

set_option maxRecDepth 8000

lemma build_mem_oxy (flat : ℕ → Bool) (p : ℤ × ℤ × ℤ) :
    p ∈ (build flat).oxy ↔
      ∃ x y z : ℕ, (build flat).space x y z = true ∧ p ∈ cellOxy x y z := by
  rw [build, foldl_mem_oxy]
  constructor
  · rintro (h | h)
    · exact absurd h (Finset.not_mem_empty p)
    · exact (exists_tuple_iff flat _).mp h
  · intro h
    exact Or.inr ((exists_tuple_iff flat _).mpr h)

lemma build_mem_oyz (flat : ℕ → Bool) (p : ℤ × ℤ × ℤ) :
    p ∈ (build flat).oyz ↔
      ∃ x y z : ℕ, (build flat).space x y z = true ∧ p ∈ cellOyz x y z := by
  rw [build, foldl_mem_oyz]
  constructor
  · rintro (h | h)
    · exact absurd h (Finset.not_mem_empty p)
    · exact (exists_tuple_iff flat _).mp h
  · intro h
    exact Or.inr ((exists_tuple_iff flat _).mpr h)

lemma build_mem_ozx (flat : ℕ → Bool) (p : ℤ × ℤ × ℤ) :
    p ∈ (build flat).ozx ↔
      ∃ x y z : ℕ, (build flat).space x y z = true ∧ p ∈ cellOzx x y z := by
  rw [build, foldl_mem_ozx]
  constructor
  · rintro (h | h)
    · exact absurd h (Finset.not_mem_empty p)
    · exact (exists_tuple_iff flat _).mp h
  · intro h
    exact Or.inr ((exists_tuple_iff flat _).mpr h)

/-! ### Further helper lemmas -/

/-- The all-false stacked tile data: no cell is flagged occupied. -/
def flatEmpty : ℕ → Bool := fun _ => false

/-- A grid with no occupied cell. -/
def emptySpace : ℕ → ℕ → ℕ → Bool := fun _ _ _ => false

lemma exists_neighbor_iff (Q : ℤ × ℤ × ℤ → Prop) :
    (∃ v ∈ NEIGHBORS, Q v) ↔ ∃ tx ty tz : ℤ, (tx, ty, tz) ∈ NEIGHBORS ∧ Q (tx, ty, tz) := by
  constructor
  · rintro ⟨⟨tx, ty, tz⟩, hv, hq⟩
    exact ⟨tx, ty, tz, hv, hq⟩
  · rintro ⟨tx, ty, tz, hv, hq⟩
    exact ⟨(tx, ty, tz), hv, hq⟩

lemma quads_length (tmpl l : List (ℤ × ℤ × ℤ)) :
    (quads tmpl l).length = tmpl.length * l.length := by
  induction l with
  | nil => simp [quads]
  | cons a l ih =>
    simp only [quads, List.flatMap_cons, List.length_append, List.length_map,
      List.length_cons] at *
    rw [ih]
    ring

lemma build_space_empty (flat : ℕ → Bool) (h : ∀ n, flat n = false) (x y z : ℕ) :
    (build flat).space x y z = false := by
  by_contra hne
  rw [Bool.not_eq_false, build_space_iff] at hne
  obtain ⟨a, b, c, d, e, f, _, _, _, _, _, _, hflag, _, _, _⟩ := hne
  rw [reshapedFlag, h] at hflag
  exact Bool.false_ne_true hflag

lemma build_oxy_empty (flat : ℕ → Bool) (h : ∀ n, flat n = false) :
    (build flat).oxy = ∅ := by
  ext p
  simp only [Finset.not_mem_empty, iff_false]
  rw [build_mem_oxy]
  rintro ⟨x, y, z, hsp, -⟩
  rw [build_space_empty flat h] at hsp
  exact Bool.false_ne_true hsp

lemma build_oyz_empty (flat : ℕ → Bool) (h : ∀ n, flat n = false) :
    (build flat).oyz = ∅ := by
  ext p
  simp only [Finset.not_mem_empty, iff_false]
  rw [build_mem_oyz]
  rintro ⟨x, y, z, hsp, -⟩
  rw [build_space_empty flat h] at hsp
  exact Bool.false_ne_true hsp

lemma build_ozx_empty (flat : ℕ → Bool) (h : ∀ n, flat n = false) :
    (build flat).ozx = ∅ := by
  ext p
  simp only [Finset.not_mem_empty, iff_false]
  rw [build_mem_ozx]
  rintro ⟨x, y, z, hsp, -⟩
  rw [build_space_empty flat h] at hsp
  exact Bool.false_ne_true hsp

lemma foldl_congr {α β : Type} (l : List α) (s1 s2 : β → α → β) (st : β)
    (h : ∀ b, ∀ a ∈ l, s1 b a = s2 b a) : l.foldl s1 st = l.foldl s2 st := by
  induction l generalizing st with
  | nil => rfl
  | cons a l ih =>
    rw [List.foldl_cons, List.foldl_cons, h st a (List.mem_cons_self a l)]
    exact ih _ fun b a' ha' => h b a' (List.mem_cons_of_mem a ha')

lemma build_congr (f g : ℕ → Bool) (h : ∀ n, n < 1296 → f n = g n) :
    build f = build g := by
  rw [build, build]
  apply foldl_congr
  intro st t ht
  rw [mem_idxTuples] at ht
  rw [buildStep, buildStep, reshapedFlag, reshapedFlag, h _ (by omega)]

lemma pyInt_eq_floor (q : ℚ) (hq : 0 ≤ q) : pyInt q = ⌊q⌋ := by
  rw [pyInt, if_neg (not_lt.mpr hq)]

lemma pyInt_range (q : ℚ) (K : ℤ) (h0 : 0 ≤ q) (h1 : q < (K : ℚ)) :
    0 ≤ pyInt q ∧ pyInt q < K := by
  rw [pyInt_eq_floor q h0]
  exact ⟨Int.floor_nonneg.mpr h0, Int.floor_lt.mpr h1⟩

lemma lookupTile_eq_none (nTiles : ℕ) (lib : ℕ → ℕ → Bool) (i : ℤ)
    (h : ¬ (-(nTiles : ℤ) ≤ i ∧ i < (nTiles : ℤ))) :
    lookupTile nTiles lib i = none := by
  rw [lookupTile, if_neg (by omega), if_neg (by omega)]

lemma stackBlocks_length (nTiles : ℕ) (lib : ℕ → ℕ → Bool) (mapid : List ℤ)
    (blocks : List (ℕ → Bool)) (h : stackBlocks nTiles lib mapid = some blocks) :
    blocks.length = mapid.length := by
  induction mapid generalizing blocks with
  | nil =>
    rw [stackBlocks] at h
    cases h
    rfl
  | cons i rest ih =>
    rw [stackBlocks] at h
    cases hl : lookupTile nTiles lib i with
    | none => rw [hl] at h; exact absurd h (by simp)
    | some b =>
      cases hr : stackBlocks nTiles lib rest with
      | none => rw [hl, hr] at h; exact absurd h (by simp)
      | some bs =>
        rw [hl, hr] at h
        cases h
        simp [ih bs hr]

lemma stackBlocks_none_of_bad (nTiles : ℕ) (lib : ℕ → ℕ → Bool) (mapid : List ℤ)
    (i : ℤ) (hi : i ∈ mapid) (hbad : lookupTile nTiles lib i = none) :
    stackBlocks nTiles lib mapid = none := by
  induction mapid with
  | nil => cases hi
  | cons a rest ih =>
    rw [stackBlocks]
    rcases List.mem_cons.mp hi with rfl | hi'
    · rw [hbad]
    · rw [ih hi']
      cases lookupTile nTiles lib a <;> rfl


/-! ### Claims -/

/-- C1 counterexample: the direction set generated by `view.py` contains
the zero offset and has 27 elements, so the builder does not iterate over
exactly the 26 nonzero vectors of the Moore neighborhood. -/
theorem claim_C1_counterexample :
    ((0, 0, 0) : ℤ × ℤ × ℤ) ∈ NEIGHBORS ∧ NEIGHBORS.card = 27 := by
  constructor
  · decide
  · decide

/-- C1 (amended): the direction set, generated as all permutations of all
combinations-with-replacement of `{-1, 0, 1}` taken 3 at a time and
deduplicated into a set, consists of exactly the 27 vectors of
`{-1, 0, 1}^3`, the zero offset included. -/
theorem claim_C1 :
    NEIGHBORS =
      ({-1, 0, 1} : Finset ℤ) ×ˢ (({-1, 0, 1} : Finset ℤ) ×ˢ ({-1, 0, 1} : Finset ℤ)) ∧
    NEIGHBORS.card = 27 := by
  constructor
  · decide
  · decide


/-- C2: a point is in the XY (resp. YZ, ZX) face set iff it is one of the
two anchors inserted for some occupied cell `(x, y, z)` and some neighbor
direction `(tx, ty, tz)`, using the wrapped next corner
`(i, j, k) = ((x+1) % 12, (y+1) % 12, (z+1) % 9)` and the extended-space
translates `x + tx*12`, `y + ty*12`, `z + tz*9`; no other anchor is ever
inserted. -/
theorem claim_C2 (flat : ℕ → Bool) (p : ℤ × ℤ × ℤ) :
    (p ∈ (build flat).oxy ↔ ∃ x y z : ℕ, (build flat).space x y z = true ∧
        ∃ tx ty tz : ℤ, (tx, ty, tz) ∈ NEIGHBORS ∧
          (p = ((x : ℤ) + tx * 12, (y : ℤ) + ty * 12, (z : ℤ) + tz * 9) ∨
           p = ((x : ℤ) + tx * 12, (y : ℤ) + ty * 12, (((z + 1) % 9 : ℕ) : ℤ) + tz * 9))) ∧
    (p ∈ (build flat).oyz ↔ ∃ x y z : ℕ, (build flat).space x y z = true ∧
        ∃ tx ty tz : ℤ, (tx, ty, tz) ∈ NEIGHBORS ∧
          (p = ((x : ℤ) + tx * 12, (y : ℤ) + ty * 12, (z : ℤ) + tz * 9) ∨
           p = ((((x + 1) % 12 : ℕ) : ℤ) + tx * 12, (y : ℤ) + ty * 12, (z : ℤ) + tz * 9))) ∧
    (p ∈ (build flat).ozx ↔ ∃ x y z : ℕ, (build flat).space x y z = true ∧
        ∃ tx ty tz : ℤ, (tx, ty, tz) ∈ NEIGHBORS ∧
          (p = ((x : ℤ) + tx * 12, (y : ℤ) + ty * 12, (z : ℤ) + tz * 9) ∨
           p = ((x : ℤ) + tx * 12, (((y + 1) % 12 : ℕ) : ℤ) + ty * 12, (z : ℤ) + tz * 9))) := by
  refine ⟨?_, ?_, ?_⟩
  · rw [build_mem_oxy]
    refine exists_congr fun x => exists_congr fun y => exists_congr fun z =>
      and_congr_right fun _ => ?_
    rw [mem_cellOxy]
    exact exists_neighbor_iff _
  · rw [build_mem_oyz]
    refine exists_congr fun x => exists_congr fun y => exists_congr fun z =>
      and_congr_right fun _ => ?_
    rw [mem_cellOyz]
    exact exists_neighbor_iff _
  · rw [build_mem_ozx]
    refine exists_congr fun x => exists_congr fun y => exists_congr fun z =>
      and_congr_right fun _ => ?_
    rw [mem_cellOzx]
    exact exists_neighbor_iff _

/-- C3 counterexample: with every stacked flag occupied, the claimed index
ranges (`a, b, c` over `[0,4)`, `d, e, f` over `[0,3)`) would make the
builder set cell `(0, 0, 11) = (0*3+0, 0*3+0, 3*3+2)`, but the loop never
sets any cell with `z ≥ 9`: the reshape is to `(4, 4, 3, 3, 3, 3)`, so
`c` only ranges over `[0,3)`. -/
theorem claim_C3_counterexample :
    ¬ (∀ (flat : ℕ → Bool) (a b c d e f : ℕ),
        a < 4 → b < 4 → c < 4 → d < 3 → e < 3 → f < 3 →
        reshapedFlag flat a b c d e f = true →
        (build flat).space (a * 3 + d) (b * 3 + e) (c * 3 + f) = true) := by
  intro h
  have h11 := h (fun _ => true) 0 0 3 0 0 2 (by omega) (by omega) (by omega)
    (by omega) (by omega) (by omega) rfl
  rw [build_space_iff] at h11
  obtain ⟨a, b, c, d, e, f, _, _, hc, _, _, hf, _, _, _, hz⟩ := h11
  omega

/-- C3 (amended): grid assembly reshapes the stacked data into 6 indices
`(a, b, c, d, e, f)` with `a, b` ranging over `[0,4)` and `c, d, e, f`
over `[0,3)`, and a grid cell `(x, y, z)` is occupied exactly when it is
`(a*3 + d, b*3 + e, c*3 + f)` for an index combination whose flag is
occupied; every other cell is left empty. -/
theorem claim_C3 (flat : ℕ → Bool) (x y z : ℕ) :
    (build flat).space x y z = true ↔
      ∃ a b c d e f : ℕ, a < 4 ∧ b < 4 ∧ c < 3 ∧ d < 3 ∧ e < 3 ∧ f < 3 ∧
        reshapedFlag flat a b c d e f = true ∧
        x = a * 3 + d ∧ y = b * 3 + e ∧ z = c * 3 + f :=
  build_space_iff flat x y z


/-- C4: for any iteration order of the three face sets, the vertex buffer
is the XY quads, then the YZ quads, then the ZX quads; each distinct
anchor of a face set contributes exactly one quad of six vertices to its
plane group, each group's length is `6 ×` the size of its set, and the
total length is `6 × (|XY| + |YZ| + |ZX|)`. -/
theorem claim_C4 (flat : ℕ → Bool) (lxy lyz lzx : List (ℤ × ℤ × ℤ))
    (hxy : enumerates lxy (build flat).oxy) (hyz : enumerates lyz (build flat).oyz)
    (hzx : enumerates lzx (build flat).ozx) :
    vertexBuffer lxy lyz lzx = quads OXY lxy ++ quads OYZ lyz ++ quads OZX lzx ∧
    (lxy.Nodup ∧ ∀ a, a ∈ lxy ↔ a ∈ (build flat).oxy) ∧
    (lyz.Nodup ∧ ∀ a, a ∈ lyz ↔ a ∈ (build flat).oyz) ∧
    (lzx.Nodup ∧ ∀ a, a ∈ lzx ↔ a ∈ (build flat).ozx) ∧
    (quads OXY lxy).length = 6 * (build flat).oxy.card ∧
    (quads OYZ lyz).length = 6 * (build flat).oyz.card ∧
    (quads OZX lzx).length = 6 * (build flat).ozx.card ∧
    (vertexBuffer lxy lyz lzx).length =
      6 * ((build flat).oxy.card + (build flat).oyz.card + (build flat).ozx.card) := by
  obtain ⟨hnd1, hfs1⟩ := hxy
  obtain ⟨hnd2, hfs2⟩ := hyz
  obtain ⟨hnd3, hfs3⟩ := hzx
  have hl1 : lxy.length = (build flat).oxy.card := by
    rw [← hfs1, List.toFinset_card_of_nodup hnd1]
  have hl2 : lyz.length = (build flat).oyz.card := by
    rw [← hfs2, List.toFinset_card_of_nodup hnd2]
  have hl3 : lzx.length = (build flat).ozx.card := by
    rw [← hfs3, List.toFinset_card_of_nodup hnd3]
  refine ⟨rfl, ⟨hnd1, ?_⟩, ⟨hnd2, ?_⟩, ⟨hnd3, ?_⟩, ?_, ?_, ?_, ?_⟩
  · intro a
    rw [← hfs1, List.mem_toFinset]
  · intro a
    rw [← hfs2, List.mem_toFinset]
  · intro a
    rw [← hfs3, List.mem_toFinset]
  · rw [quads_length, hl1]; rfl
  · rw [quads_length, hl2]; rfl
  · rw [quads_length, hl3]; rfl
  · rw [vertexBuffer, List.length_append, List.length_append,
      quads_length, quads_length, quads_length, hl1, hl2, hl3]
    show 6 * _ + 6 * _ + 6 * _ = _
    ring

/-- C4 witness at the empty tile data and the empty iterations. -/
theorem claim_C4_witness :
    vertexBuffer [] [] [] = quads OXY [] ++ quads OYZ [] ++ quads OZX [] ∧
    (List.Nodup ([] : List (ℤ × ℤ × ℤ)) ∧
      ∀ a, a ∈ ([] : List (ℤ × ℤ × ℤ)) ↔ a ∈ (build flatEmpty).oxy) ∧
    (List.Nodup ([] : List (ℤ × ℤ × ℤ)) ∧
      ∀ a, a ∈ ([] : List (ℤ × ℤ × ℤ)) ↔ a ∈ (build flatEmpty).oyz) ∧
    (List.Nodup ([] : List (ℤ × ℤ × ℤ)) ∧
      ∀ a, a ∈ ([] : List (ℤ × ℤ × ℤ)) ↔ a ∈ (build flatEmpty).ozx) ∧
    (quads OXY []).length = 6 * (build flatEmpty).oxy.card ∧
    (quads OYZ []).length = 6 * (build flatEmpty).oyz.card ∧
    (quads OZX []).length = 6 * (build flatEmpty).ozx.card ∧
    (vertexBuffer [] [] []).length =
      6 * ((build flatEmpty).oxy.card + (build flatEmpty).oyz.card +
        (build flatEmpty).ozx.card) :=
  claim_C4 flatEmpty [] [] []
    ⟨List.nodup_nil, by rw [List.toFinset_nil, build_oxy_empty flatEmpty fun n => rfl]⟩
    ⟨List.nodup_nil, by rw [List.toFinset_nil, build_oyz_empty flatEmpty fun n => rfl]⟩
    ⟨List.nodup_nil, by rw [List.toFinset_nil, build_ozx_empty flatEmpty fun n => rfl]⟩

/-- C5 (code bug): with no cell of the stacked tile data flagged
occupied, all three face-anchor sets and the `vertices` list are indeed
empty — but the subsequent `np.stack(vertices)` then fails on the empty
list, so construction raises `ValueError` instead of producing a vertex
buffer with zero faces. -/
theorem claim_C5 :
    (build flatEmpty).oxy = ∅ ∧ (build flatEmpty).oyz = ∅ ∧
    (build flatEmpty).ozx = ∅ ∧ vertexBuffer [] [] [] = [] ∧
    stackVertices (vertexBuffer [] [] []) = none :=
  ⟨build_oxy_empty flatEmpty fun _ => rfl, build_oyz_empty flatEmpty fun _ => rfl,
   build_ozx_empty flatEmpty fun _ => rfl, rfl, rfl⟩


/-- C6: whenever the rejection-sampling loop terminates, the returned
position lies in `[0,12)×[0,12)×[0,9)` and its floor indexes an
unoccupied grid cell; every earlier sample, whose truncated cell was
occupied, was rejected and resampled. -/
theorem claim_C6 (space : ℕ → ℕ → ℕ → Bool) (rs : ℕ → ℚ × ℚ × ℚ)
    (hb : ∀ n, 0 ≤ (rs n).1 ∧ (rs n).1 < 1 ∧ 0 ≤ (rs n).2.1 ∧ (rs n).2.1 < 1 ∧
      0 ≤ (rs n).2.2 ∧ (rs n).2.2 < 1)
    (h : ∃ n, occupiedAt space (placeSamples rs n) = false) :
    (0 ≤ (placeCamera space rs h).1 ∧ (placeCamera space rs h).1 < 12 ∧
     0 ≤ (placeCamera space rs h).2.1 ∧ (placeCamera space rs h).2.1 < 12 ∧
     0 ≤ (placeCamera space rs h).2.2 ∧ (placeCamera space rs h).2.2 < 9) ∧
    space ⌊(placeCamera space rs h).1⌋.toNat ⌊(placeCamera space rs h).2.1⌋.toNat
      ⌊(placeCamera space rs h).2.2⌋.toNat = false ∧
    (∀ m, m < Nat.find h → occupiedAt space (placeSamples rs m) = true) := by
  obtain ⟨r1, r2, r3, r4, r5, r6⟩ := hb (Nat.find h)
  have q1 : (0:ℚ) ≤ (rs (Nat.find h)).1 * 12 := mul_nonneg r1 (by norm_num)
  have q2 : (0:ℚ) ≤ (rs (Nat.find h)).2.1 * 12 := mul_nonneg r3 (by norm_num)
  have q3 : (0:ℚ) ≤ (rs (Nat.find h)).2.2 * 9 := mul_nonneg r5 (by norm_num)
  refine ⟨?_, ?_, ?_⟩
  · simp only [placeCamera, placeSamples]
    exact ⟨q1, by nlinarith, q2, by nlinarith, q3, by nlinarith⟩
  · have hspec := Nat.find_spec h
    simp only [occupiedAt, placeSamples] at hspec
    simp only [placeCamera, placeSamples]
    rw [pyInt_eq_floor _ q1, pyInt_eq_floor _ q2, pyInt_eq_floor _ q3] at hspec
    exact hspec
  · intro m hm
    simpa using Nat.find_min h hm

/-- C6 loop-termination certificate for the concrete witness stream. -/
lemma sampleHalf_ex :
    ∃ n, occupiedAt emptySpace
      (placeSamples (fun _ => ((1:ℚ)/2, (1:ℚ)/2, (1:ℚ)/2)) n) = false :=
  ⟨0, rfl⟩

/-- C6 witness: the all-free grid and the constant stream `1/2`. -/
theorem claim_C6_witness :
    (0 ≤ (placeCamera emptySpace (fun _ => ((1:ℚ)/2, (1:ℚ)/2, (1:ℚ)/2)) sampleHalf_ex).1 ∧
     (placeCamera emptySpace (fun _ => ((1:ℚ)/2, (1:ℚ)/2, (1:ℚ)/2)) sampleHalf_ex).1 < 12 ∧
     0 ≤ (placeCamera emptySpace (fun _ => ((1:ℚ)/2, (1:ℚ)/2, (1:ℚ)/2)) sampleHalf_ex).2.1 ∧
     (placeCamera emptySpace (fun _ => ((1:ℚ)/2, (1:ℚ)/2, (1:ℚ)/2)) sampleHalf_ex).2.1 < 12 ∧
     0 ≤ (placeCamera emptySpace (fun _ => ((1:ℚ)/2, (1:ℚ)/2, (1:ℚ)/2)) sampleHalf_ex).2.2 ∧
     (placeCamera emptySpace (fun _ => ((1:ℚ)/2, (1:ℚ)/2, (1:ℚ)/2)) sampleHalf_ex).2.2 < 9) ∧
    emptySpace
      ⌊(placeCamera emptySpace (fun _ => ((1:ℚ)/2, (1:ℚ)/2, (1:ℚ)/2)) sampleHalf_ex).1⌋.toNat
      ⌊(placeCamera emptySpace (fun _ => ((1:ℚ)/2, (1:ℚ)/2, (1:ℚ)/2)) sampleHalf_ex).2.1⌋.toNat
      ⌊(placeCamera emptySpace (fun _ => ((1:ℚ)/2, (1:ℚ)/2, (1:ℚ)/2)) sampleHalf_ex).2.2⌋.toNat
      = false ∧
    (∀ m, m < Nat.find sampleHalf_ex →
      occupiedAt emptySpace
        (placeSamples (fun _ => ((1:ℚ)/2, (1:ℚ)/2, (1:ℚ)/2)) m) = true) :=
  claim_C6 emptySpace (fun _ => ((1:ℚ)/2, (1:ℚ)/2, (1:ℚ)/2))
    (fun _ => by norm_num) sampleHalf_ex

/-- C7: construction is deterministic — equal tile data (on the 1296 flat
indices the reshape reads) gives an identical build state, and equal
occupancy grids give identical face-anchor sets. -/
theorem claim_C7 (f g : ℕ → Bool) :
    ((∀ n, n < 1296 → f n = g n) → build f = build g) ∧
    ((build f).space = (build g).space →
      (build f).oxy = (build g).oxy ∧ (build f).oyz = (build g).oyz ∧
        (build f).ozx = (build g).ozx) := by
  refine ⟨build_congr f g, fun hsp => ⟨?_, ?_, ?_⟩⟩
  · ext p
    rw [build_mem_oxy, build_mem_oxy, hsp]
  · ext p
    rw [build_mem_oyz, build_mem_oyz, hsp]
  · ext p
    rw [build_mem_ozx, build_mem_ozx, hsp]

/-- C7 witness: two runs on the same (empty) tile data. -/
theorem claim_C7_witness :
    build flatEmpty = build flatEmpty ∧
    ((build flatEmpty).oxy = (build flatEmpty).oxy ∧
     (build flatEmpty).oyz = (build flatEmpty).oyz ∧
     (build flatEmpty).ozx = (build flatEmpty).ozx) :=
  ⟨(claim_C7 flatEmpty flatEmpty).1 (fun _ _ => rfl),
   (claim_C7 flatEmpty flatEmpty).2 rfl⟩

/-- C8: a malformed `mapid` — wrong number of identifiers, or an
identifier outside numpy's valid index range for the tile library — makes
construction fail (return `none`) rather than build a grid. -/
theorem claim_C8 (nTiles : ℕ) (lib : ℕ → ℕ → Bool) (mapid : List ℤ)
    (h : mapid.length ≠ 16 ∨
      ∃ i ∈ mapid, ¬ (-(nTiles : ℤ) ≤ i ∧ i < (nTiles : ℤ))) :
    buildStacked nTiles lib mapid = none := by
  rcases h with hlen | ⟨i, hi, hbad⟩
  · rw [buildStacked]
    split
    · rfl
    · rename_i blocks hsb
      rw [if_neg]
      intro hc
      exact hlen (by rw [← stackBlocks_length nTiles lib mapid blocks hsb, hc])
  · rw [buildStacked,
      stackBlocks_none_of_bad nTiles lib mapid i hi (lookupTile_eq_none nTiles lib i hbad)]

/-- C8 witness: a `mapid` of 15 identifiers is rejected. -/
theorem claim_C8_witness :
    (List.replicate 15 (0 : ℤ)).length ≠ 16 ∧
    buildStacked 1 (fun _ _ => false) (List.replicate 15 (0 : ℤ)) = none :=
  ⟨by decide, claim_C8 1 (fun _ _ => false) (List.replicate 15 0) (Or.inl (by decide))⟩

/-- C9: rendering returns the view state unchanged — in particular the
occupancy grid is untouched — and only issues backend calls computed from
the camera position and orientation: the `mvp` matrix write, the `eye`
position write, and one triangle draw. -/
theorem claim_C9 (v : ViewState) (width height fov : ℚ) :
    (render v width height fov).1 = v ∧
    (render v width height fov).1.space = v.space ∧
    (render v width height fov).2 =
      [Cmd.writeUniform "mvp"
          (RVal.matmul (RVal.perspective fov (width / height) (1 / 10000) 4)
            (RVal.lookAt v.camPos (qadd v.camPos v.camForward) v.camUpward)),
       Cmd.writeUniform "eye" (RVal.vec v.camPos), Cmd.drawTriangles] :=
  ⟨rfl, rfl, rfl⟩

/-- C10: a candidate coordinate sampled as `random()*L` with
`random() ∈ [0,1)` truncates to an index in `[0,12)`, `[0,12)`, `[0,9)`
respectively, so the grid access in the loop guard is always in bounds. -/
theorem claim_C10 (rs : ℕ → ℚ × ℚ × ℚ) (n : ℕ)
    (h1 : 0 ≤ (rs n).1) (h2 : (rs n).1 < 1)
    (h3 : 0 ≤ (rs n).2.1) (h4 : (rs n).2.1 < 1)
    (h5 : 0 ≤ (rs n).2.2) (h6 : (rs n).2.2 < 1) :
    (0 ≤ pyInt (placeSamples rs n).1 ∧ (pyInt (placeSamples rs n).1).toNat < 12) ∧
    (0 ≤ pyInt (placeSamples rs n).2.1 ∧ (pyInt (placeSamples rs n).2.1).toNat < 12) ∧
    (0 ≤ pyInt (placeSamples rs n).2.2 ∧ (pyInt (placeSamples rs n).2.2).toNat < 9) := by
  simp only [placeSamples]
  have b1 := pyInt_range ((rs n).1 * 12) 12 (mul_nonneg h1 (by norm_num))
    (by push_cast; nlinarith)
  have b2 := pyInt_range ((rs n).2.1 * 12) 12 (mul_nonneg h3 (by norm_num))
    (by push_cast; nlinarith)
  have b3 := pyInt_range ((rs n).2.2 * 9) 9 (mul_nonneg h5 (by norm_num))
    (by push_cast; nlinarith)
  obtain ⟨b1a, b1b⟩ := b1
  obtain ⟨b2a, b2b⟩ := b2
  obtain ⟨b3a, b3b⟩ := b3
  exact ⟨⟨b1a, by omega⟩, ⟨b2a, by omega⟩, ⟨b3a, by omega⟩⟩

/-- C10 witness at the constant stream `1/2`. -/
theorem claim_C10_witness :
    (0 ≤ pyInt (placeSamples (fun _ => ((1:ℚ)/2, (1:ℚ)/2, (1:ℚ)/2)) 0).1 ∧
      (pyInt (placeSamples (fun _ => ((1:ℚ)/2, (1:ℚ)/2, (1:ℚ)/2)) 0).1).toNat < 12) ∧
    (0 ≤ pyInt (placeSamples (fun _ => ((1:ℚ)/2, (1:ℚ)/2, (1:ℚ)/2)) 0).2.1 ∧
      (pyInt (placeSamples (fun _ => ((1:ℚ)/2, (1:ℚ)/2, (1:ℚ)/2)) 0).2.1).toNat < 12) ∧
    (0 ≤ pyInt (placeSamples (fun _ => ((1:ℚ)/2, (1:ℚ)/2, (1:ℚ)/2)) 0).2.2 ∧
      (pyInt (placeSamples (fun _ => ((1:ℚ)/2, (1:ℚ)/2, (1:ℚ)/2)) 0).2.2).toNat < 9) :=
  claim_C10 (fun _ => ((1:ℚ)/2, (1:ℚ)/2, (1:ℚ)/2)) 0 (by norm_num) (by norm_num)
    (by norm_num) (by norm_num) (by norm_num) (by norm_num)

end Axuy
